import Mathlib

/-!
A verification development for the ImageFlow authentication core.

Go strings are modelled as lists of characters (`GoStr`); Go's
`time.Time` values as natural-number Unix seconds.  Each definition
below is a direct translation of the corresponding Go function from
the repository (`handlers/auth.go`, `utils/oidc.go` material,
`utils/user.go`, `utils/storage_paths.go`); the doc comment of each
definition names its source.
-/

deriving instance DecidableEq for Except

namespace ImageFlow

/-- Go strings, modelled as lists of characters. -/
abbrev GoStr := List Char

/-- Coerce a Lean string literal into the `GoStr` model. -/
def str (s : String) : GoStr := s.data

/-- Go's `strings.Split(s, " ")`: split at every occurrence of the space
character, keeping empty fragments, never collapsing runs of spaces.
Translated from the Go standard library behaviour used by
`ValidateAPIKey` and `validateAPIKeyAuth` in `handlers/auth.go`. -/
def splitOnSpace : GoStr → List GoStr
  | [] => [[]]
  | c :: cs =>
    if c = ' ' then [] :: splitOnSpace cs
    else
      match splitOnSpace cs with
      | [] => [[c]]
      | p :: ps => (c :: p) :: ps

/-- The `User` record of `utils/user.go` (field for field; `time.Time`
fields become Unix seconds, zero-valued when unset). -/
structure GoUser where
  ID : GoStr
  Email : GoStr
  Name : GoStr
  Picture : GoStr
  Provider : GoStr
  CreatedAt : Nat
  UpdatedAt : Nat
  LastLogin : Nat
  IsActive : Bool
deriving DecidableEq

/-- The literal scheme word checked by the API-key validators. -/
def bearerWord : GoStr := str "Bearer"

/-- `validateAPIKeyAuth` from `handlers/auth.go`: reject an empty
`Authorization` header, split the header on spaces, require exactly two
fragments with the first equal to `Bearer`, then compare the second
fragment against the configured key. -/
def validateAPIKeyAuth (cfgKey authHeader : GoStr) : Except String Unit :=
  if authHeader = [] then .error "missing authorization header"
  else
    match splitOnSpace authHeader with
    | [p0, p1] =>
      if p0 = bearerWord then
        if p1 = cfgKey then .ok () else .error "invalid API key"
      else .error "invalid authorization header format"
    | _ => .error "invalid authorization header format"

/-- The dummy user attached by `RequireAuth` in API-key mode
(`handlers/auth.go`).  The Go struct literal sets only `ID`, `Name`
and `Email`; every other field keeps its Go zero value — in
particular `IsActive` is `false`. -/
def apiKeyDummyUser : GoUser :=
  { ID := str "api_key_user"
    Email := str "api@imageflow.local"
    Name := str "API Key User"
    Picture := []
    Provider := []
    CreatedAt := 0
    UpdatedAt := 0
    LastLogin := 0
    IsActive := false }

/-- The typed rejections the middleware can write
(`errors.ErrInvalidAPIKey`, `errors.ErrUnauthorized`,
`errors.ErrServerError` in `handlers/auth.go`). -/
inductive RejectCode
  | invalidAPIKey
  | unauthorizedUser
  | serverError
deriving DecidableEq

/-- Result of the `RequireAuth` middleware: either a typed rejection
written to the response (the downstream handler is never invoked), or
the downstream handler invoked with the given user attached to the
request context. -/
inductive MiddlewareOutcome
  | reject (code : RejectCode)
  | proceed (u : GoUser)
deriving DecidableEq

/-- `RequireAuth` from `handlers/auth.go`, restricted to
`cfg.AuthType = api_key`: on a `validateAPIKeyAuth` failure write
`ErrInvalidAPIKey` and return; on success attach `apiKeyDummyUser`
and call the downstream handler. -/
def requireAuthAPIKey (cfgKey authHeader : GoStr) : MiddlewareOutcome :=
  match validateAPIKeyAuth cfgKey authHeader with
  | .error _ => .reject .invalidAPIKey
  | .ok _ => .proceed apiKeyDummyUser

/-! ### JWT session tokens -/

/-- Signing methods a decoded JWT header can declare.  The Go code
signs with `jwt.SigningMethodHS256` and accepts only methods of type
`*jwt.SigningMethodHMAC` (the HS256/HS384/HS512 family). -/
inductive GoSigningMethod
  | HS256
  | HS384
  | HS512
  | RS256
  | ES256
  | algNone
deriving DecidableEq

/-- Whether a signing method belongs to the HMAC family, i.e. whether
the Go type assertion `token.Method.(*jwt.SigningMethodHMAC)` holds. -/
def GoSigningMethod.isHMAC : GoSigningMethod → Bool
  | .HS256 => true
  | .HS384 => true
  | .HS512 => true
  | _ => false

/-- The `Claims` structure of the session tokens: the four custom
fields plus the registered claims that `GenerateJWT` fills in
(`ExpiresAt`, `IssuedAt`, `Issuer`, `Subject`), as Unix seconds. -/
structure SessionClaims where
  userID : GoStr
  email : GoStr
  name : GoStr
  provider : GoStr
  expiresAt : Nat
  issuedAt : Nat
  issuer : GoStr
  subject : GoStr
deriving DecidableEq

/-- Modelled from the spec: the external JWT library's symmetric
signing primitive, idealized as a perfect MAC — the tag determines
(and is determined by) the declared method, the key and the signed
claims, so a tag verifies under a method/key pair exactly when it was
produced for that method, key and claim set. -/
def macSign (m : GoSigningMethod) (key : GoStr) (c : SessionClaims) :
    GoSigningMethod × GoStr × SessionClaims :=
  (m, key, c)

/-- A decoded JWT: the header's declared signing method, the claim
set, and the signature tag.  The base64 wire encoding is abstracted
away; `GenerateJWT` returns this decoded form directly. -/
structure JWTToken where
  method : GoSigningMethod
  claims : SessionClaims
  sig : GoSigningMethod × GoStr × SessionClaims
deriving DecidableEq

/-- The `OIDCProvider` state that token issue/validate depend on: the
symmetric signing key and the readiness flag (`Initialized` in Go,
also covering the `OIDCClient == nil` check). -/
structure OIDCProviderM where
  jwtSignKey : GoStr
  inited : Bool
deriving DecidableEq

/-- Number of seconds in the fixed 24-hour token lifetime. -/
def dayS : Nat := 24 * 3600

/-- The claim set `GenerateJWT` builds for a user at an instant: the
user's profile fields, `ExpiresAt = now + 24h`, `IssuedAt = now`,
`Issuer = "ImageFlow"`, `Subject = user.ID`.  (The Go code calls
`time.Now()` twice a few nanoseconds apart; both calls are modelled
as the single instant `now`.) -/
def mkSessionClaims (u : GoUser) (now : Nat) : SessionClaims :=
  { userID := u.ID
    email := u.Email
    name := u.Name
    provider := u.Provider
    expiresAt := now + dayS
    issuedAt := now
    issuer := str "ImageFlow"
    subject := u.ID }

/-- The token `GenerateJWT` signs for a user at an instant. -/
def issuedToken (o : OIDCProviderM) (u : GoUser) (now : Nat) : JWTToken :=
  { method := .HS256
    claims := mkSessionClaims u now
    sig := macSign .HS256 o.jwtSignKey (mkSessionClaims u now) }

/-- `GenerateJWT` from the OIDC utilities: require the provider to be
ready, then sign the session claims with HS256 under the provider
key and return the token. -/
def generateJWT (o : OIDCProviderM) (u : GoUser) (now : Nat) :
    Except String JWTToken :=
  if o.inited = false then .error "OIDC provider not ready"
  else .ok (issuedToken o u now)

/-- `ValidateJWT` from the OIDC utilities: require the provider to be
ready; the key callback rejects any token whose header declares a
method outside the HMAC family before any claim is trusted; then the
library verifies the signature with the provider key and validates the
expiry claim (valid while `now < expiresAt`); on success the claim set
is returned. -/
def validateJWT (o : OIDCProviderM) (tok : JWTToken) (now : Nat) :
    Except String SessionClaims :=
  if o.inited = false then .error "OIDC provider not ready"
  else if tok.method.isHMAC = false then
    .error "failed to parse JWT token: unexpected signing method"
  else if tok.sig ≠ macSign tok.method o.jwtSignKey tok.claims then
    .error "failed to parse JWT token: signature is invalid"
  else if tok.claims.expiresAt ≤ now then
    .error "failed to parse JWT token: token is expired"
  else .ok tok.claims

/-! ### The user store -/

/-- The durable keyed store backing `RedisUserStore`: the per-key
`GET`/`SET` view of Redis (the membership index used only by
`ListUsers` is omitted — no claim touches it). -/
def Store := GoStr → Option GoUser

/-- A Redis `SET` on a user key: write the record at its `ID`,
overwriting whatever was there. -/
def setUser (s : Store) (u : GoUser) : Store :=
  fun k => if k = u.ID then some u else s k

/-- `CreateUser` from `utils/user.go`: stamp `CreatedAt`, `UpdatedAt`
and `IsActive = true` on the record, then `SET` it (Redis `SET`
overwrites, no existence check). -/
def createUser (s : Store) (u : GoUser) (now : Nat) : Store :=
  setUser s { u with CreatedAt := now, UpdatedAt := now, IsActive := true }

/-- `UpdateUser` from `utils/user.go`: read the existing record (a
missing key is the typed not-found outcome), preserve its `CreatedAt`,
stamp a fresh `UpdatedAt`, and `SET` the result. -/
def updateUser (s : Store) (u : GoUser) (now : Nat) : Except String Store :=
  match s u.ID with
  | none => .error "user not found"
  | some existing =>
    .ok (setUser s { u with CreatedAt := existing.CreatedAt, UpdatedAt := now })

/-- `UpdateLastLogin` from `utils/user.go`: read the record, stamp
`LastLogin` and `UpdatedAt`, and store it via `UpdateUser`. -/
def updateLastLogin (s : Store) (userID : GoStr) (now : Nat) : Except String Store :=
  match s userID with
  | none => .error "user not found"
  | some u => updateUser s { u with LastLogin := now, UpdatedAt := now } now

/-- `DeactivateUser` from `utils/user.go`: read the record, set
`IsActive := false`, stamp `UpdatedAt`, and store it via
`UpdateUser`. -/
def deactivateUser (s : Store) (userID : GoStr) (now : Nat) : Except String Store :=
  match s userID with
  | none => .error "user not found"
  | some u => updateUser s { u with IsActive := false, UpdatedAt := now } now

/-- The `OIDCUserInfo` extracted from a verified provider identity
token. -/
structure OIDCUserInfoM where
  sub : GoStr
  email : GoStr
  name : GoStr
  picture : GoStr
deriving DecidableEq

/-- `CreateOrUpdateUser` from the OIDC utilities: look the subject up
(the typed not-found outcome selects the create branch); build the
fresh record from the provider identity; on create, `CreateUser`
stamps timestamps and `IsActive = true` into both the record and the
returned struct; on update, copy `CreatedAt` and `IsActive` from the
existing record before `UpdateUser` (which also stamps `UpdatedAt`
into the returned struct); finally a best-effort `UpdateLastLogin`
whose failure is logged and swallowed.  Returns the user struct the
Go function returns, together with the resulting store. -/
def createOrUpdateUser (s : Store) (ui : OIDCUserInfoM) (provider : GoStr)
    (now : Nat) : Except String (GoUser × Store) :=
  let fresh : GoUser :=
    { ID := ui.sub
      Email := ui.email
      Name := ui.name
      Picture := ui.picture
      Provider := provider
      CreatedAt := 0
      UpdatedAt := 0
      LastLogin := 0
      IsActive := false }
  match s ui.sub with
  | none =>
    let created := { fresh with CreatedAt := now, UpdatedAt := now, IsActive := true }
    let s1 := setUser s created
    match updateLastLogin s1 created.ID now with
    | .ok s2 => .ok (created, s2)
    | .error _ => .ok (created, s1)
  | some existing =>
    let toWrite := { fresh with CreatedAt := existing.CreatedAt, IsActive := existing.IsActive }
    match updateUser s toWrite now with
    | .error e => .error e
    | .ok s1 =>
      let updated := { toWrite with UpdatedAt := now }
      match updateLastLogin s1 updated.ID now with
      | .ok s2 => .ok (updated, s2)
      | .error _ => .ok (updated, s1)

/-- The typed failures of `GetUserFromRequest`. -/
inductive ReqAuthError
  | notReady
  | noHeader
  | badHeaderFormat
  | invalidToken (msg : String)
  | userNotFound
  | userInactive
deriving DecidableEq

/-- `GetUserFromRequest` from the OIDC utilities, after the
`Authorization: Bearer` header has yielded the token (the wire
encoding of the token string is abstracted away): validate the JWT,
re-fetch the live user record from the store by the claims' `UserID`,
reject a missing record, reject a deactivated record, and otherwise
return the live record. -/
def getUserFromToken (o : OIDCProviderM) (s : Store) (tok : JWTToken)
    (now : Nat) : Except ReqAuthError GoUser :=
  if o.inited = false then .error .notReady
  else
    match validateJWT o tok now with
    | .error e => .error (.invalidToken e)
    | .ok claims =>
      match s claims.userID with
      | none => .error .userNotFound
      | some u =>
        if u.IsActive = false then .error .userInactive
        else .ok u

/-! ### Storage path resolution -/

/-- The two authentication modes of `config.AuthType`. -/
inductive AuthType
  | api_key
  | oidc
deriving DecidableEq

/-- Go's `filepath.Join` on the components used here: drop empty
components and join the rest with a slash (our components contain no
separators or dot segments, so `Clean` is the identity on the
result). -/
def goPathJoin (parts : List GoStr) : GoStr :=
  List.intercalate (str "/") (parts.filter fun p => p ≠ [])

/-- The `UserStoragePaths` receiver of `utils/storage_paths.go`: the
user identity and the configured auth mode. -/
structure UserStoragePaths where
  userID : GoStr
  authType : AuthType
deriving DecidableEq

/-- `GetOriginalPath`: legacy flat layout in API-key mode, the same
sub-structure nested under `users/<userID>` in OIDC mode. -/
def GetOriginalPath (usp : UserStoragePaths) (filename orientation : GoStr) : GoStr :=
  if usp.authType = .api_key then
    goPathJoin [str "original", orientation, filename]
  else
    goPathJoin [str "users", usp.userID, str "original", orientation, filename]

/-- `GetWebPPath`: the `.webp` variant path in either layout. -/
def GetWebPPath (usp : UserStoragePaths) (filename orientation : GoStr) : GoStr :=
  if usp.authType = .api_key then
    goPathJoin [orientation, str "webp", filename ++ str ".webp"]
  else
    goPathJoin [str "users", usp.userID, orientation, str "webp", filename ++ str ".webp"]

/-- `GetAVIFPath`: the `.avif` variant path in either layout. -/
def GetAVIFPath (usp : UserStoragePaths) (filename orientation : GoStr) : GoStr :=
  if usp.authType = .api_key then
    goPathJoin [orientation, str "avif", filename ++ str ".avif"]
  else
    goPathJoin [str "users", usp.userID, orientation, str "avif", filename ++ str ".avif"]

/-- `GetGIFPath`: the GIF path in either layout. -/
def GetGIFPath (usp : UserStoragePaths) (filename : GoStr) : GoStr :=
  if usp.authType = .api_key then
    goPathJoin [str "gif", filename]
  else
    goPathJoin [str "users", usp.userID, str "gif", filename]

/-- The extension switch inside `GenerateStoragePaths`. -/
def extForFormat (format : GoStr) : GoStr :=
  if format = str "jpeg" ∨ format = str "jpg" then str ".jpg"
  else if format = str "png" then str ".png"
  else if format = str "webp" then str ".webp"
  else str ".jpg"

/-- `GenerateStoragePaths` from `utils/storage_paths.go`: for GIFs all
three slots collapse to the single GIF path; otherwise map the format
to an extension and build the (original, webp, avif) triple. -/
def GenerateStoragePaths (usp : UserStoragePaths) (imageID format orientation : GoStr) :
    GoStr × GoStr × GoStr :=
  if format = str "gif" then
    let original := GetGIFPath usp (imageID ++ str ".gif")
    (original, original, original)
  else
    let ext := extForFormat format
    (GetOriginalPath usp (imageID ++ ext) orientation,
     GetWebPPath usp imageID orientation,
     GetAVIFPath usp imageID orientation)

/-! ### The OIDC callback handlers -/

/-- The payload returned by the provider's token endpoint, abstracted
to the material `ExtractUserInfo` consumes. -/
abbrev OAuth2Token := GoStr

/-- The request-independent context a callback handler runs in: the
configured mode, the OIDC provider state (its `inited` flag covers
both the `nil` check and `Initialized`), the two network calls to the
identity provider as result oracles, the user store, and the current
time. -/
structure CallbackDeps where
  authTypeOIDC : Bool
  provider : OIDCProviderM
  exchange : GoStr → Except String OAuth2Token
  extractUserInfo : OAuth2Token → Except String OIDCUserInfoM
  store : Store
  now : Nat

/-- The request-dependent inputs both callback surfaces consume: the
authorization code and state (from the query string for GET, from the
JSON body for POST) and the `oidc_state` cookie (`none` when the
cookie is absent). -/
structure CallbackInput where
  code : GoStr
  state : GoStr
  stateCookie : Option GoStr
deriving DecidableEq

/-- Which side effects a callback attempt performed: whether the
expired `Set-Cookie` clearing `oidc_state` was written, and which of
the external calls were reached. -/
structure CallbackTrace where
  cookieCleared : Bool
  exchangeAttempted : Bool
  upsertAttempted : Bool
  jwtAttempted : Bool
deriving DecidableEq

/-- The trace of an attempt that performed no side effect. -/
def CallbackTrace.start : CallbackTrace :=
  { cookieCleared := false, exchangeAttempted := false
    upsertAttempted := false, jwtAttempted := false }

/-- Outcomes of the GET callback handler, one constructor per
response-writing branch of `OIDCCallbackHandler`. -/
inductive GetOutcome
  | notEnabled
  | notConfigured
  | invalidState
  | noCode
  | exchangeFailed
  | extractFailed
  | upsertFailed
  | jwtFailed
  | success (user : GoUser) (token : JWTToken) (expiresAt : Nat)
deriving DecidableEq

/-- Outcomes of the POST callback handler, one constructor per
response-writing branch of `OIDCCallbackAPIHandler`. -/
inductive PostOutcome
  | notEnabled
  | notConfigured
  | codeRequired
  | stateRequired
  | missingStateCookie
  | invalidState
  | exchangeFailed
  | extractFailed
  | upsertFailed
  | jwtFailed
  | success (user : GoUser) (token : JWTToken) (expiresAt : Nat)
deriving DecidableEq

/-- `OIDCCallbackHandler` (the redirect-style GET surface) from
`handlers/auth.go`, branch for branch: mode guard, readiness guard,
state check (absent cookie and mismatched cookie share one branch),
cookie clearing, empty-code check, code exchange, identity
extraction, user upsert, session token issue, success response with
`expires_at = now + 24h`.  Returns the outcome, the side-effect
trace, and the resulting store. -/
def oidcCallbackHandler (d : CallbackDeps) (inp : CallbackInput) :
    GetOutcome × CallbackTrace × Store :=
  if d.authTypeOIDC = false then (.notEnabled, .start, d.store)
  else if d.provider.inited = false then (.notConfigured, .start, d.store)
  else
    match inp.stateCookie with
    | none => (.invalidState, .start, d.store)
    | some cv =>
      if cv ≠ inp.state then (.invalidState, .start, d.store)
      else
        -- the state cookie is cleared from this point on
        if inp.code = [] then
          (.noCode, { CallbackTrace.start with cookieCleared := true }, d.store)
        else
          match d.exchange inp.code with
          | .error _ =>
            (.exchangeFailed,
             { cookieCleared := true, exchangeAttempted := true
               upsertAttempted := false, jwtAttempted := false }, d.store)
          | .ok tok =>
            match d.extractUserInfo tok with
            | .error _ =>
              (.extractFailed,
               { cookieCleared := true, exchangeAttempted := true
                 upsertAttempted := false, jwtAttempted := false }, d.store)
            | .ok ui =>
              match createOrUpdateUser d.store ui (str "oidc") d.now with
              | .error _ =>
                (.upsertFailed,
                 { cookieCleared := true, exchangeAttempted := true
                   upsertAttempted := true, jwtAttempted := false }, d.store)
              | .ok (user, s1) =>
                match generateJWT d.provider user d.now with
                | .error _ =>
                  (.jwtFailed,
                   { cookieCleared := true, exchangeAttempted := true
                     upsertAttempted := true, jwtAttempted := true }, s1)
                | .ok stok =>
                  (.success user stok (d.now + dayS),
                   { cookieCleared := true, exchangeAttempted := true
                     upsertAttempted := true, jwtAttempted := true }, s1)

/-- `OIDCCallbackAPIHandler` (the body-carrying POST surface) from
`handlers/auth.go`, branch for branch: mode guard, readiness guard,
empty-code check, empty-state check, missing-cookie check, mismatch
check, cookie clearing, then the same exchange → extract → upsert →
issue pipeline as the GET surface. -/
def oidcCallbackAPIHandler (d : CallbackDeps) (inp : CallbackInput) :
    PostOutcome × CallbackTrace × Store :=
  if d.authTypeOIDC = false then (.notEnabled, .start, d.store)
  else if d.provider.inited = false then (.notConfigured, .start, d.store)
  else if inp.code = [] then (.codeRequired, .start, d.store)
  else if inp.state = [] then (.stateRequired, .start, d.store)
  else
    match inp.stateCookie with
    | none => (.missingStateCookie, .start, d.store)
    | some cv =>
      if cv ≠ inp.state then (.invalidState, .start, d.store)
      else
        -- the state cookie is cleared from this point on
        match d.exchange inp.code with
        | .error _ =>
          (.exchangeFailed,
           { cookieCleared := true, exchangeAttempted := true
             upsertAttempted := false, jwtAttempted := false }, d.store)
        | .ok tok =>
          match d.extractUserInfo tok with
          | .error _ =>
            (.extractFailed,
             { cookieCleared := true, exchangeAttempted := true
               upsertAttempted := false, jwtAttempted := false }, d.store)
          | .ok ui =>
            match createOrUpdateUser d.store ui (str "oidc") d.now with
            | .error _ =>
              (.upsertFailed,
               { cookieCleared := true, exchangeAttempted := true
                 upsertAttempted := true, jwtAttempted := false }, d.store)
            | .ok (user, s1) =>
              match generateJWT d.provider user d.now with
              | .error _ =>
                (.jwtFailed,
                 { cookieCleared := true, exchangeAttempted := true
                   upsertAttempted := true, jwtAttempted := true }, s1)
              | .ok stok =>
                (.success user stok (d.now + dayS),
                 { cookieCleared := true, exchangeAttempted := true
                   upsertAttempted := true, jwtAttempted := true }, s1)

/-- The classification a client can observe of a callback response:
acceptance with the issued session, a 400-class client error
(`http.StatusBadRequest` on the GET surface, `ErrInvalidParam` on the
POST surface) or a 500-class server error
(`http.StatusInternalServerError` on the GET surface,
`ErrServerError` on the POST surface). -/
inductive ClassifiedOutcome
  | accept (user : GoUser) (token : JWTToken) (expiresAt : Nat)
  | clientError
  | serverError
deriving DecidableEq

/-- Status classification of each GET branch (`http.Error` codes in
`OIDCCallbackHandler`). -/
def classifyGet : GetOutcome → ClassifiedOutcome
  | .notEnabled => .clientError
  | .notConfigured => .serverError
  | .invalidState => .clientError
  | .noCode => .clientError
  | .exchangeFailed => .serverError
  | .extractFailed => .serverError
  | .upsertFailed => .serverError
  | .jwtFailed => .serverError
  | .success u t e => .accept u t e

/-- Status classification of each POST branch (`ErrInvalidParam`
versus `ErrServerError` in `OIDCCallbackAPIHandler`). -/
def classifyPost : PostOutcome → ClassifiedOutcome
  | .notEnabled => .clientError
  | .notConfigured => .serverError
  | .codeRequired => .clientError
  | .stateRequired => .clientError
  | .missingStateCookie => .clientError
  | .invalidState => .clientError
  | .exchangeFailed => .serverError
  | .extractFailed => .serverError
  | .upsertFailed => .serverError
  | .jwtFailed => .serverError
  | .success u t e => .accept u t e

/-- Whether a POST outcome is the `InvalidState` rejection of the
spec's taxonomy (CSRF mismatch or missing state cookie). -/
def PostOutcome.isStateRejection : PostOutcome → Bool
  | .missingStateCookie => true
  | .invalidState => true
  | _ => false

/-- A concrete store holding exactly one user (used to instantiate
theorems at concrete inputs). -/
def singletonStore (u : GoUser) : Store :=
  fun k => if k = u.ID then some u else none

/-- A concrete user record. -/
def sampleUser : GoUser :=
  { ID := str "u1"
    Email := str "a@b.c"
    Name := str "Alice"
    Picture := str "p"
    Provider := str "oidc"
    CreatedAt := 10
    UpdatedAt := 10
    LastLogin := 10
    IsActive := true }

/-- Concrete callback dependencies whose external calls all succeed. -/
def sampleDeps : CallbackDeps :=
  { authTypeOIDC := true
    provider := { jwtSignKey := str "k", inited := true }
    exchange := fun _ => .ok (str "tok")
    extractUserInfo := fun _ => .ok
      { sub := str "u1", email := str "a@b.c", name := str "Alice", picture := str "p" }
    store := fun _ => none
    now := 100 }

/-- A concrete claim set (used to instantiate theorems at concrete
inputs). -/
def sampleClaims : SessionClaims := mkSessionClaims sampleUser 0

/-! ## Lemmas about `splitOnSpace` -/

theorem splitOnSpace_ne_nil (s : GoStr) : splitOnSpace s ≠ [] := by
  cases s with
  | nil => simp [splitOnSpace]
  | cons c cs =>
    simp only [splitOnSpace]
    split
    · simp
    · split <;> simp

theorem splitOnSpace_of_noSpace (a : GoStr) (h : ' ' ∉ a) : splitOnSpace a = [a] := by
  induction a with
  | nil => rfl
  | cons c cs ih =>
    have hc : c ≠ ' ' := fun hc => h (by simp [hc])
    have hcs : ' ' ∉ cs := fun hm => h (List.mem_cons_of_mem _ hm)
    simp [splitOnSpace, hc, ih hcs]

theorem splitOnSpace_append (a b : GoStr) (h : ' ' ∉ a) :
    splitOnSpace (a ++ ' ' :: b) = a :: splitOnSpace b := by
  induction a with
  | nil => simp [splitOnSpace]
  | cons c cs ih =>
    have hc : c ≠ ' ' := fun hc => h (by simp [hc])
    have hcs : ' ' ∉ cs := fun hm => h (List.mem_cons_of_mem _ hm)
    simp [splitOnSpace, hc, ih hcs]

theorem splitOnSpace_eq_single (s x : GoStr) (h : splitOnSpace s = [x]) :
    s = x ∧ ' ' ∉ x := by
  induction s generalizing x with
  | nil =>
    simp only [splitOnSpace] at h
    injection h with h1 _
    subst h1
    exact ⟨rfl, by simp⟩
  | cons c cs ih =>
    by_cases hc : c = ' '
    · subst hc
      simp only [splitOnSpace, if_pos rfl] at h
      injection h with _ h2
      exact absurd h2 (splitOnSpace_ne_nil cs)
    · simp only [splitOnSpace, if_neg hc] at h
      cases hs : splitOnSpace cs with
      | nil => exact absurd hs (splitOnSpace_ne_nil cs)
      | cons p ps =>
        rw [hs] at h
        injection h with h1 h2
        subst h2
        obtain ⟨hcp, hp⟩ := ih p hs
        subst hcp
        subst h1
        refine ⟨rfl, fun hmem => ?_⟩
        rcases List.mem_cons.mp hmem with h | h
        · exact hc h.symm
        · exact hp h

theorem splitOnSpace_pair_chars (s a b : GoStr) (h : splitOnSpace s = [a, b]) :
    s = a ++ ' ' :: b ∧ ' ' ∉ a ∧ ' ' ∉ b := by
  induction s generalizing a with
  | nil => simp [splitOnSpace] at h
  | cons c cs ih =>
    by_cases hc : c = ' '
    · subst hc
      simp only [splitOnSpace, if_pos rfl] at h
      injection h with h1 h2
      obtain ⟨hcs, hb⟩ := splitOnSpace_eq_single cs b h2
      subst hcs
      subst h1
      exact ⟨rfl, by simp, hb⟩
    · simp only [splitOnSpace, if_neg hc] at h
      cases hs : splitOnSpace cs with
      | nil => exact absurd hs (splitOnSpace_ne_nil cs)
      | cons p ps =>
        rw [hs] at h
        injection h with h1 h2
        have hpb : splitOnSpace cs = [p, b] := by rw [hs, h2]
        obtain ⟨hcs, hp, hb⟩ := ih p hpb
        subst hcs
        subst h1
        refine ⟨rfl, fun hmem => ?_, hb⟩
        rcases List.mem_cons.mp hmem with h | h
        · exact hc h.symm
        · exact hp h

theorem splitOnSpace_eq_pair (s a b : GoStr) :
    splitOnSpace s = [a, b] ↔ (s = a ++ ' ' :: b ∧ ' ' ∉ a ∧ ' ' ∉ b) := by
  constructor
  · exact splitOnSpace_pair_chars s a b
  · rintro ⟨hs, ha, hb⟩
    subst hs
    rw [splitOnSpace_append a b ha, splitOnSpace_of_noSpace b hb]

theorem validateAPIKeyAuth_ok_iff (key hdr : GoStr) :
    validateAPIKeyAuth key hdr = .ok () ↔ splitOnSpace hdr = [bearerWord, key] := by
  constructor
  · intro h
    unfold validateAPIKeyAuth at h
    by_cases h0 : hdr = []
    · rw [if_pos h0] at h
      simp at h
    · rw [if_neg h0] at h
      cases hs : splitOnSpace hdr with
      | nil => exact absurd hs (splitOnSpace_ne_nil hdr)
      | cons p ps =>
        cases ps with
        | nil => rw [hs] at h; simp at h
        | cons q qs =>
          cases qs with
          | nil =>
            rw [hs] at h
            by_cases hp : p = bearerWord
            · by_cases hq : q = key
              · rw [hp, hq]
              · simp [hp, hq] at h
            · simp [hp] at h
          | cons r rs => rw [hs] at h; simp at h
  · intro h
    obtain ⟨hs, _, _⟩ := splitOnSpace_pair_chars hdr bearerWord key h
    have h0 : hdr ≠ [] := by
      rw [hs]
      simp [bearerWord, str]
    unfold validateAPIKeyAuth
    rw [if_neg h0, h]
    simp

/-! ## C10 -/

/-- C10: `validateAPIKeyAuth` accepts a request exactly when the
`Authorization` header is the string `Bearer ` followed by the
configured key and the key contains no space; hence a key containing
a space can never authenticate any request, and with the empty key
the bare header `Bearer ` (an empty credential) is accepted. -/
theorem validateAPIKeyAuth_characterization :
    (∀ key hdr : GoStr, validateAPIKeyAuth key hdr = .ok () ↔
      (hdr = str "Bearer " ++ key ∧ ' ' ∉ key))
    ∧ (∀ key hdr : GoStr, ' ' ∈ key → validateAPIKeyAuth key hdr ≠ .ok ())
    ∧ validateAPIKeyAuth [] (str "Bearer ") = .ok () := by
  have hbw : str "Bearer " = bearerWord ++ [' '] := by decide
  have hiff : ∀ key hdr : GoStr, validateAPIKeyAuth key hdr = .ok () ↔
      (hdr = str "Bearer " ++ key ∧ ' ' ∉ key) := by
    intro key hdr
    rw [validateAPIKeyAuth_ok_iff, splitOnSpace_eq_pair]
    constructor
    · rintro ⟨hs, _, hk⟩
      exact ⟨by rw [hs, hbw, List.append_assoc]; rfl, hk⟩
    · rintro ⟨hs, hk⟩
      refine ⟨?_, by decide, hk⟩
      rw [hs, hbw, List.append_assoc]
      rfl
  refine ⟨hiff, ?_, by decide⟩
  intro key hdr hsp h
  exact absurd hsp (by simpa using ((hiff key hdr).mp h).2)

/-- Witness for C10: a key containing a space rejects even its own
exact bearer header, and the empty key accepts the bare header. -/
theorem validateAPIKeyAuth_characterization_witness :
    validateAPIKeyAuth (str "k y") (str "Bearer k y") ≠ .ok ()
    ∧ validateAPIKeyAuth [] (str "Bearer ") = .ok () :=
  ⟨validateAPIKeyAuth_characterization.2.1 (str "k y") (str "Bearer k y") (by decide),
   validateAPIKeyAuth_characterization.2.2⟩

/-! ## C1 -/

/-- C1 counterexample: with key `k` and header `Bearer k` the
middleware proceeds downstream with the sentinel identity, but that
identity's `isActive` flag is `false` (the Go struct literal never
sets it), contradicting the claimed `isActive=true`. -/
theorem requireAuthAPIKey_sentinel_inactive :
    requireAuthAPIKey (str "k") (str "Bearer k") = .proceed apiKeyDummyUser
    ∧ ¬ apiKeyDummyUser.IsActive = true := by decide

/-- C1 (amended): in API-key mode, a request whose `Authorization`
header is exactly two space-separated fragments `Bearer` and the
configured key proceeds to the downstream handler with the sentinel
identity attached (`id = "api_key_user"`, `isActive` left at its zero
value `false`); every other request is rejected with the
invalid-API-key error and the downstream handler is never invoked. -/
theorem requireAuthAPIKey_spec :
    (∀ key hdr : GoStr, splitOnSpace hdr = [bearerWord, key] →
      requireAuthAPIKey key hdr = .proceed apiKeyDummyUser)
    ∧ (∀ key hdr : GoStr, splitOnSpace hdr ≠ [bearerWord, key] →
      requireAuthAPIKey key hdr = .reject .invalidAPIKey)
    ∧ apiKeyDummyUser.ID = str "api_key_user"
    ∧ apiKeyDummyUser.IsActive = false := by
  refine ⟨?_, ?_, by decide, by decide⟩
  · intro key hdr h
    have hv := (validateAPIKeyAuth_ok_iff key hdr).mpr h
    unfold requireAuthAPIKey
    rw [hv]
  · intro key hdr h
    cases hv : validateAPIKeyAuth key hdr with
    | ok u =>
      cases u
      exact absurd ((validateAPIKeyAuth_ok_iff key hdr).mp hv) h
    | error e =>
      unfold requireAuthAPIKey
      rw [hv]

/-- Witness for C1 (amended): a matching header proceeds with the
sentinel identity; a mismatched key is rejected. -/
theorem requireAuthAPIKey_spec_witness :
    requireAuthAPIKey (str "k") (str "Bearer k") = .proceed apiKeyDummyUser
    ∧ requireAuthAPIKey (str "k") (str "Bearer kk") = .reject .invalidAPIKey :=
  ⟨requireAuthAPIKey_spec.1 (str "k") (str "Bearer k") (by decide),
   requireAuthAPIKey_spec.2.1 (str "k") (str "Bearer kk") (by decide)⟩

/-! ## C5 -/

/-- C5: a token whose header declares a signing method outside the
HMAC family is rejected — no claims are returned — even when its
signature tag is exactly the tag the declared method and the provider
key would produce for its claim set. -/
theorem validateJWT_rejects_non_hmac (o : OIDCProviderM) (tok : JWTToken)
    (now : Nat) (halg : tok.method.isHMAC = false)
    (hsig : tok.sig = macSign tok.method o.jwtSignKey tok.claims) :
    ∀ c : SessionClaims, validateJWT o tok now ≠ .ok c := by
  intro c h
  unfold validateJWT at h
  by_cases hi : o.inited = false
  · rw [if_pos hi] at h
    simp at h
  · rw [if_neg hi, if_pos halg] at h
    simp at h

/-- Witness for C5: an RS256 token carrying a tag built for RS256
under the provider key is still rejected. -/
theorem validateJWT_rejects_non_hmac_witness :
    validateJWT { jwtSignKey := str "k", inited := true }
      { method := .RS256, claims := sampleClaims
        sig := macSign .RS256 (str "k") sampleClaims } 0 ≠ .ok sampleClaims :=
  validateJWT_rejects_non_hmac _ _ 0 (by decide) rfl sampleClaims

/-! ## C7 -/

/-- C7: validating a token immediately after issuing it for a user
succeeds and yields exactly the issued claims, whose `userID`,
`subject`, `provider` come from the user, whose `issuer` is
`ImageFlow`, and whose `expiresAt` is the issuance instant plus 24
hours. -/
theorem generateJWT_validateJWT_roundtrip (o : OIDCProviderM) (u : GoUser)
    (t now : Nat) (hinit : o.inited = true) (hexp : now < t + dayS) :
    ∃ tok : JWTToken, generateJWT o u t = .ok tok
      ∧ validateJWT o tok now = .ok tok.claims
      ∧ tok.claims.userID = u.ID
      ∧ tok.claims.provider = u.Provider
      ∧ tok.claims.subject = u.ID
      ∧ tok.claims.issuer = str "ImageFlow"
      ∧ tok.claims.issuedAt = t
      ∧ tok.claims.expiresAt = t + dayS := by
  refine ⟨issuedToken o u t, ?_, ?_, rfl, rfl, rfl, rfl, rfl, rfl⟩
  · unfold generateJWT
    rw [hinit]
    simp
  · unfold validateJWT
    rw [hinit]
    simp [issuedToken, GoSigningMethod.isHMAC, mkSessionClaims, Nat.not_le.mpr hexp]

/-- Witness for C7: a concrete issue-then-validate round trip. -/
theorem generateJWT_validateJWT_roundtrip_witness :
    ∃ tok : JWTToken,
      generateJWT { jwtSignKey := str "k", inited := true } sampleUser 50 = .ok tok
      ∧ validateJWT { jwtSignKey := str "k", inited := true } tok 55 = .ok tok.claims
      ∧ tok.claims.userID = sampleUser.ID
      ∧ tok.claims.provider = sampleUser.Provider
      ∧ tok.claims.subject = sampleUser.ID
      ∧ tok.claims.issuer = str "ImageFlow"
      ∧ tok.claims.issuedAt = 50
      ∧ tok.claims.expiresAt = 50 + dayS :=
  generateJWT_validateJWT_roundtrip _ sampleUser 50 55 rfl (by decide)

/-! ## C4 -/

/-- C4: for a stored active user, deactivating the user after a token
was issued makes validation of that still-unexpired token fail with
the user-inactive error — not a signature or expiry failure — because
`GetUserFromRequest` re-fetches the live record by the token's
`UserID`/`subject` instead of trusting the embedded profile fields. -/
theorem deactivation_invalidates_live_token (o : OIDCProviderM) (s : Store)
    (u : GoUser) (t td now : Nat) (hinit : o.inited = true)
    (hs : s u.ID = some u) (hexp : now < t + dayS) :
    ∃ s' : Store, generateJWT o u t = .ok (issuedToken o u t)
      ∧ deactivateUser s u.ID td = .ok s'
      ∧ getUserFromToken o s' (issuedToken o u t) now = .error .userInactive := by
  refine ⟨setUser s { u with IsActive := false, UpdatedAt := td, CreatedAt := u.CreatedAt },
    ?_, ?_, ?_⟩
  · unfold generateJWT
    rw [hinit]
    simp
  · unfold deactivateUser updateUser
    rw [hs]
    simp only []
    rw [show ({ u with IsActive := false, UpdatedAt := td } : GoUser).ID = u.ID from rfl, hs]
  · unfold getUserFromToken
    rw [hinit]
    have hval : validateJWT o (issuedToken o u t) now = .ok (mkSessionClaims u t) := by
      unfold validateJWT
      rw [hinit]
      simp [issuedToken, GoSigningMethod.isHMAC, mkSessionClaims, Nat.not_le.mpr hexp]
    rw [hval]
    simp [mkSessionClaims, setUser]

/-- Witness for C4: a concrete user, store and timeline. -/
theorem deactivation_invalidates_live_token_witness :
    ∃ s' : Store,
      generateJWT { jwtSignKey := str "k", inited := true } sampleUser 50 =
        .ok (issuedToken { jwtSignKey := str "k", inited := true } sampleUser 50)
      ∧ deactivateUser (singletonStore sampleUser) sampleUser.ID 60 = .ok s'
      ∧ getUserFromToken { jwtSignKey := str "k", inited := true } s'
          (issuedToken { jwtSignKey := str "k", inited := true } sampleUser 50) 70 =
        .error .userInactive :=
  deactivation_invalidates_live_token _ _ sampleUser 50 60 70 rfl (by decide) (by decide)

/-! ## C6 -/

/-- C6: the first upsert for a new subject stores the user with
`createdAt = updatedAt` and `isActive = true`; a subsequent upsert
for an existing subject overwrites the mutable profile fields
(email, name, picture), stamps the upsert instant into `updatedAt`,
and leaves `createdAt` and `isActive` exactly as they were — in
particular `isActive = false` survives a re-login. -/
theorem createOrUpdateUser_spec :
    (∀ (s : Store) (ui : OIDCUserInfoM) (prov : GoStr) (t : Nat),
      s ui.sub = none →
      ∃ (ret : GoUser) (s' : Store) (r : GoUser),
        createOrUpdateUser s ui prov t = .ok (ret, s')
        ∧ s' ui.sub = some r
        ∧ r.CreatedAt = t ∧ r.UpdatedAt = t ∧ r.IsActive = true
        ∧ r.Email = ui.email ∧ r.Name = ui.name ∧ r.Picture = ui.picture)
    ∧ (∀ (s : Store) (ui : OIDCUserInfoM) (prov : GoStr) (t : Nat) (e : GoUser),
      s ui.sub = some e →
      ∃ (ret : GoUser) (s' : Store) (r : GoUser),
        createOrUpdateUser s ui prov t = .ok (ret, s')
        ∧ s' ui.sub = some r
        ∧ r.Email = ui.email ∧ r.Name = ui.name ∧ r.Picture = ui.picture
        ∧ r.UpdatedAt = t
        ∧ r.CreatedAt = e.CreatedAt ∧ r.IsActive = e.IsActive) := by
  constructor
  · intro s ui prov t hnone
    unfold createOrUpdateUser updateLastLogin updateUser
    rw [hnone]
    simp [setUser]
    refine ⟨_, _, ⟨rfl, rfl⟩,
      { ID := ui.sub, Email := ui.email, Name := ui.name, Picture := ui.picture,
        Provider := prov, CreatedAt := t, UpdatedAt := t, LastLogin := t,
        IsActive := true },
      ?_, rfl, rfl, rfl, rfl, rfl, rfl⟩
    simp [setUser]
  · intro s ui prov t e hsome
    unfold createOrUpdateUser updateLastLogin updateUser
    simp [hsome, setUser]
    refine ⟨_, _, ⟨rfl, rfl⟩,
      { ID := ui.sub, Email := ui.email, Name := ui.name, Picture := ui.picture,
        Provider := prov, CreatedAt := e.CreatedAt, UpdatedAt := t, LastLogin := t,
        IsActive := e.IsActive },
      ?_, rfl, rfl, rfl, rfl, rfl, rfl⟩
    simp [setUser]

/-- Witness for C6: a fresh subject then a re-login over a deactivated
record. -/
theorem createOrUpdateUser_spec_witness :
    (∃ (ret : GoUser) (s' : Store) (r : GoUser),
      createOrUpdateUser (fun _ => none)
        { sub := str "u1", email := str "a@b.c", name := str "Alice", picture := str "p" }
        (str "oidc") 5 = .ok (ret, s')
      ∧ s' (str "u1") = some r
      ∧ r.CreatedAt = 5 ∧ r.UpdatedAt = 5 ∧ r.IsActive = true
      ∧ r.Email = str "a@b.c" ∧ r.Name = str "Alice" ∧ r.Picture = str "p")
    ∧ (∃ (ret : GoUser) (s' : Store) (r : GoUser),
      createOrUpdateUser (singletonStore { sampleUser with IsActive := false })
        { sub := str "u1", email := str "x@y.z", name := str "Bob", picture := str "q" }
        (str "oidc") 99 = .ok (ret, s')
      ∧ s' (str "u1") = some r
      ∧ r.Email = str "x@y.z" ∧ r.Name = str "Bob" ∧ r.Picture = str "q"
      ∧ r.UpdatedAt = 99
      ∧ r.CreatedAt = { sampleUser with IsActive := false }.CreatedAt
      ∧ r.IsActive = { sampleUser with IsActive := false }.IsActive) :=
  ⟨createOrUpdateUser_spec.1 (fun _ => none)
      { sub := str "u1", email := str "a@b.c", name := str "Alice", picture := str "p" }
      (str "oidc") 5 rfl,
   createOrUpdateUser_spec.2 (singletonStore { sampleUser with IsActive := false })
      { sub := str "u1", email := str "x@y.z", name := str "Bob", picture := str "q" }
      (str "oidc") 99 { sampleUser with IsActive := false } (by decide)⟩

/-! ## C9 -/

/-- C9: the storage path resolver for asset `abc`, orientation
`landscape`, format `jpeg` yields the flat legacy triple in API-key
mode, and the same sub-structure nested under `users/u1` in OIDC mode
for user `u1`. -/
theorem generateStoragePaths_examples :
    GenerateStoragePaths { userID := str "u1", authType := .api_key }
      (str "abc") (str "jpeg") (str "landscape") =
      (str "original/landscape/abc.jpg",
       str "landscape/webp/abc.webp",
       str "landscape/avif/abc.avif")
    ∧ GenerateStoragePaths { userID := str "u1", authType := .oidc }
      (str "abc") (str "jpeg") (str "landscape") =
      (str "users/u1/original/landscape/abc.jpg",
       str "users/u1/landscape/webp/abc.webp",
       str "users/u1/landscape/avif/abc.avif") := by decide

/-! ## C2 -/

/-- C2 counterexample: a POST callback in OIDC mode whose `code` is
empty and whose state cookie is absent is rejected by the
code-required check — not by the invalid-state classification the
claim requires for every request with an absent or mismatching
cookie. -/
theorem oidcCallbackAPI_empty_code_not_state_rejection :
    (oidcCallbackAPIHandler sampleDeps
      { code := [], state := str "s", stateCookie := none }).1 = .codeRequired
    ∧ ((oidcCallbackAPIHandler sampleDeps
      { code := [], state := str "s", stateCookie := none }).1.isStateRejection
        = true → False) := by decide

/-- C2 (amended): in OIDC mode, when the state cookie is absent or
differs from the presented state, the GET handler rejects with the
invalid-state error and the POST handler — provided its earlier
required-parameter checks pass, i.e. `code` and `state` are nonempty —
rejects with its invalid-state classification (missing cookie or
mismatch); in every such case nothing proceeds: no code exchange, no
upsert, no token issue, no cookie cleared, store unchanged. -/
theorem callback_state_check_blocks (d : CallbackDeps) (inp : CallbackInput)
    (hmode : d.authTypeOIDC = true) (hready : d.provider.inited = true)
    (hcook : inp.stateCookie ≠ some inp.state) :
    ((oidcCallbackHandler d inp).1 = .invalidState
      ∧ (oidcCallbackHandler d inp).2.1 = .start
      ∧ (oidcCallbackHandler d inp).2.2 = d.store)
    ∧ (inp.code ≠ [] → inp.state ≠ [] →
      ((oidcCallbackAPIHandler d inp).1.isStateRejection = true
        ∧ (oidcCallbackAPIHandler d inp).2.1 = .start
        ∧ (oidcCallbackAPIHandler d inp).2.2 = d.store)) := by
  cases hco : inp.stateCookie with
  | none =>
    constructor
    · simp [oidcCallbackHandler, hmode, hready, hco]
    · intro hc hs
      simp [oidcCallbackAPIHandler, PostOutcome.isStateRejection,
        hmode, hready, hco, hc, hs]
  | some cv =>
    have hne : cv ≠ inp.state := fun h => hcook (by rw [hco, h])
    constructor
    · simp [oidcCallbackHandler, hmode, hready, hco, hne]
    · intro hc hs
      simp [oidcCallbackAPIHandler, PostOutcome.isStateRejection,
        hmode, hready, hco, hne, hc, hs]

/-- Witness for C2 (amended): a GET and a POST attempt with an absent
cookie both stop at the state check with no side effect. -/
theorem callback_state_check_blocks_witness :
    ((oidcCallbackHandler sampleDeps
        { code := str "c", state := str "s", stateCookie := none }).1 = .invalidState
      ∧ (oidcCallbackHandler sampleDeps
        { code := str "c", state := str "s", stateCookie := none }).2.1 = .start
      ∧ (oidcCallbackHandler sampleDeps
        { code := str "c", state := str "s", stateCookie := none }).2.2 = sampleDeps.store)
    ∧ ((oidcCallbackAPIHandler sampleDeps
        { code := str "c", state := str "s", stateCookie := none }).1.isStateRejection = true
      ∧ (oidcCallbackAPIHandler sampleDeps
        { code := str "c", state := str "s", stateCookie := none }).2.1 = .start
      ∧ (oidcCallbackAPIHandler sampleDeps
        { code := str "c", state := str "s", stateCookie := none }).2.2 = sampleDeps.store) :=
  ⟨(callback_state_check_blocks sampleDeps
      { code := str "c", state := str "s", stateCookie := none } rfl rfl (by decide)).1,
   (callback_state_check_blocks sampleDeps
      { code := str "c", state := str "s", stateCookie := none } rfl rfl (by decide)).2
      (by decide) (by decide)⟩

/-! ## C3 -/

/-- C3 counterexample: a GET callback attempt in OIDC mode that fails
the state check (absent cookie) does not clear the `oidc_state`
cookie, contradicting the claim that every attempt, including a
failed state check, clears it. -/
theorem oidcCallback_failed_state_keeps_cookie :
    (oidcCallbackHandler sampleDeps
      { code := str "c", state := str "s", stateCookie := none }).2.1.cookieCleared
      = false := by decide

/-- C3 (amended): in OIDC mode the state cookie is cleared exactly on
the attempts that pass the state check (for the POST surface, also
its earlier required-parameter checks), whatever the later outcome —
success or any downstream failure; an attempt failing at the state
check clears nothing on either surface. -/
theorem callback_cookie_one_shot (d : CallbackDeps) (inp : CallbackInput)
    (hmode : d.authTypeOIDC = true) (hready : d.provider.inited = true) :
    (inp.stateCookie = some inp.state →
      ((oidcCallbackHandler d inp).2.1.cookieCleared = true
       ∧ (inp.code ≠ [] → inp.state ≠ [] →
          (oidcCallbackAPIHandler d inp).2.1.cookieCleared = true)))
    ∧ (inp.stateCookie ≠ some inp.state →
      ((oidcCallbackHandler d inp).2.1.cookieCleared = false
       ∧ (oidcCallbackAPIHandler d inp).2.1.cookieCleared = false)) := by
  constructor
  · intro hmatch
    refine ⟨?_, fun hc hs => ?_⟩
    · simp only [oidcCallbackHandler, hmode, hready, hmatch]
      repeat' split
      all_goals (first | rfl | simp_all)
    · simp only [oidcCallbackAPIHandler, hmode, hready, hmatch, hc, hs]
      repeat' split
      all_goals (first | rfl | simp_all)
  · intro hne
    cases hco : inp.stateCookie with
    | none =>
      refine ⟨?_, ?_⟩ <;>
      · simp only [oidcCallbackHandler, oidcCallbackAPIHandler, hmode, hready, hco]
        repeat' split
        all_goals (first | rfl | simp_all)
    | some cv =>
      have hcv : cv ≠ inp.state := fun h => hne (by rw [hco, h])
      refine ⟨?_, ?_⟩ <;>
      · simp only [oidcCallbackHandler, oidcCallbackAPIHandler, hmode, hready, hco]
        repeat' split
        all_goals (first | rfl | simp_all)

/-- Witness for C3 (amended): with a matching cookie both surfaces
clear it; with an absent cookie the GET surface does not. -/
theorem callback_cookie_one_shot_witness :
    (oidcCallbackHandler sampleDeps
      { code := str "c", state := str "s", stateCookie := some (str "s") }).2.1.cookieCleared
      = true
    ∧ (oidcCallbackAPIHandler sampleDeps
      { code := str "c", state := str "s", stateCookie := some (str "s") }).2.1.cookieCleared
      = true
    ∧ (oidcCallbackHandler sampleDeps
      { code := str "c", state := str "s", stateCookie := none }).2.1.cookieCleared
      = false :=
  ⟨((callback_cookie_one_shot sampleDeps
      { code := str "c", state := str "s", stateCookie := some (str "s") } rfl rfl).1
      (by decide)).1,
   ((callback_cookie_one_shot sampleDeps
      { code := str "c", state := str "s", stateCookie := some (str "s") } rfl rfl).1
      (by decide)).2 (by decide) (by decide),
   ((callback_cookie_one_shot sampleDeps
      { code := str "c", state := str "s", stateCookie := none } rfl rfl).2
      (by decide)).1⟩

/-! ## C8 -/

/-- C8 counterexample: with an empty state parameter and a cookie
whose value is the empty string, the GET handler passes the state
check and (all external calls succeeding) accepts, while the POST
handler rejects with its state-required check: the two surfaces do not
produce the same accept/reject outcome on every input combination of
code, state and cookie. -/
theorem callback_surfaces_diverge_on_empty_state :
    classifyGet (oidcCallbackHandler sampleDeps
      { code := str "c", state := [], stateCookie := some [] }).1
    ≠ classifyPost (oidcCallbackAPIHandler sampleDeps
      { code := str "c", state := [], stateCookie := some [] }).1 := by decide

/-- C8 (amended): on every input whose code and state are both
nonempty, the two callback surfaces perform the same step sequence
(identical side-effect traces and resulting stores) and produce the
same classified accept/reject outcome; they can diverge only when
`code` or `state` is empty, where the POST surface rejects before the
state check while the GET surface checks state first. -/
theorem callback_surfaces_agree (d : CallbackDeps) (inp : CallbackInput)
    (hcode : inp.code ≠ []) (hstate : inp.state ≠ []) :
    classifyGet (oidcCallbackHandler d inp).1
      = classifyPost (oidcCallbackAPIHandler d inp).1
    ∧ (oidcCallbackHandler d inp).2.1 = (oidcCallbackAPIHandler d inp).2.1
    ∧ (oidcCallbackHandler d inp).2.2 = (oidcCallbackAPIHandler d inp).2.2 := by
  cases hmode : d.authTypeOIDC with
  | false =>
    simp [oidcCallbackHandler, oidcCallbackAPIHandler, classifyGet, classifyPost, hmode]
  | true =>
    cases hready : d.provider.inited with
    | false =>
      simp [oidcCallbackHandler, oidcCallbackAPIHandler, classifyGet, classifyPost,
        hmode, hready]
    | true =>
      cases hco : inp.stateCookie with
      | none =>
        simp [oidcCallbackHandler, oidcCallbackAPIHandler, classifyGet, classifyPost,
          hmode, hready, hco, hcode, hstate]
      | some cv =>
        by_cases hcv : cv = inp.state
        · subst hcv
          cases hex : d.exchange inp.code with
          | error e =>
            simp [oidcCallbackHandler, oidcCallbackAPIHandler, classifyGet, classifyPost,
              hmode, hready, hco, hcode, hstate, hex]
          | ok tok =>
            cases hui : d.extractUserInfo tok with
            | error e =>
              simp [oidcCallbackHandler, oidcCallbackAPIHandler, classifyGet, classifyPost,
                hmode, hready, hco, hcode, hstate, hex, hui]
            | ok ui =>
              cases hup : createOrUpdateUser d.store ui (str "oidc") d.now with
              | error e =>
                simp [oidcCallbackHandler, oidcCallbackAPIHandler, classifyGet, classifyPost,
                  hmode, hready, hco, hcode, hstate, hex, hui, hup]
              | ok p =>
                cases p with
                | mk user s1 =>
                  cases hjw : generateJWT d.provider user d.now with
                  | error e =>
                    simp [oidcCallbackHandler, oidcCallbackAPIHandler, classifyGet,
                      classifyPost, hmode, hready, hco, hcode, hstate, hex, hui, hup, hjw]
                  | ok stok =>
                    simp [oidcCallbackHandler, oidcCallbackAPIHandler, classifyGet,
                      classifyPost, hmode, hready, hco, hcode, hstate, hex, hui, hup, hjw]
        · simp [oidcCallbackHandler, oidcCallbackAPIHandler, classifyGet, classifyPost,
            hmode, hready, hco, hcode, hstate, hcv]

/-- Witness for C8 (amended): a concrete all-success input on which
both surfaces accept identically. -/
theorem callback_surfaces_agree_witness :
    classifyGet (oidcCallbackHandler sampleDeps
        { code := str "c", state := str "s", stateCookie := some (str "s") }).1
      = classifyPost (oidcCallbackAPIHandler sampleDeps
        { code := str "c", state := str "s", stateCookie := some (str "s") }).1
    ∧ (oidcCallbackHandler sampleDeps
        { code := str "c", state := str "s", stateCookie := some (str "s") }).2.1
      = (oidcCallbackAPIHandler sampleDeps
        { code := str "c", state := str "s", stateCookie := some (str "s") }).2.1
    ∧ (oidcCallbackHandler sampleDeps
        { code := str "c", state := str "s", stateCookie := some (str "s") }).2.2
      = (oidcCallbackAPIHandler sampleDeps
        { code := str "c", state := str "s", stateCookie := some (str "s") }).2.2 :=
  callback_surfaces_agree sampleDeps
    { code := str "c", state := str "s", stateCookie := some (str "s") }
    (by decide) (by decide)

end ImageFlow
